import Mathlib

/-!
Verification of the Appetize upload action (src/appetize.ts): the input
validation and request-construction logic. The TypeScript source is embedded
shallowly: configuration records become structures, JavaScript truthiness and
the relevant builtin conversions are modelled explicitly, and the fallible
validation and builder functions return `Except`.
-/

namespace Appetize

/-- A JavaScript number as it occurs in this program: either NaN (the result of
converting a non-numeric string) or an integer value. All numbers the program
manipulates are integers, so no fractional values are modelled. -/
inductive JsNumber where
  | nan : JsNumber
  | int : Int → JsNumber
deriving DecidableEq

/-- JavaScript truthiness of a number: NaN and 0 are falsy, everything else is
truthy. This models `if (input.timeout && ...)`. -/
def jsTruthy : JsNumber → Bool
  | JsNumber.nan => false
  | JsNumber.int v => v != 0

/-- JavaScript truthiness of a string, and also the `Boolean(s)` conversion used
by `getInputs`: exactly the non-empty strings are truthy. -/
def jsTruthyString (s : String) : Bool := s != ""

/-- The JavaScript `Number(s)` conversion, restricted to the shapes that occur
here: the empty string converts to 0, a string of decimal digits (optionally
preceded by a minus sign) converts to the corresponding integer, and any other
string converts to NaN. (The full builtin also accepts whitespace, fractional,
and hexadecimal forms, which this program never relies on.) -/
def jsStringToNumber (s : String) : JsNumber :=
  if s = "" then JsNumber.int 0
  else
    match s.toNat? with
    | some n => JsNumber.int n
    | none =>
      if s.take 1 = "-" then
        match (s.drop 1).toNat? with
        | some n => JsNumber.int (-(n : Int))
        | none => JsNumber.nan
      else JsNumber.nan

/-- The JavaScript `String(n)` conversion on numbers. -/
def jsStringOfNumber : JsNumber → String
  | JsNumber.nan => "NaN"
  | JsNumber.int v => toString v

/-- The JavaScript `String(b)` conversion on booleans. -/
def jsStringOfBool (b : Bool) : String := if b then "true" else "false"

/-- The raw option strings read from the hosting environment: `core.getInput`
returns the empty string for an unset option, so every field defaults to `""`. -/
structure RawInputs where
  apiHost : String := ""
  apiToken : String := ""
  publicKey : String := ""
  platform : String := ""
  appFile : String := ""
  appUrl : String := ""
  fileType : String := ""
  note : String := ""
  timeout : String := ""
  disabled : String := ""
  disableHome : String := ""
  useLastFrame : String := ""
  buttonText : String := ""
  postSessionButtonText : String := ""
  launchUrl : String := ""
deriving DecidableEq

/-- The configuration record (interface `InputData`). Field defaults are the
values produced by `getInputs` on all-unset raw options. -/
structure InputData where
  apiHost : String := ""
  apiToken : String := ""
  publicKey : String := ""
  platform : String := ""
  appFile : String := ""
  appUrl : String := ""
  fileType : String := ""
  note : String := ""
  timeout : JsNumber := JsNumber.int 0
  disabled : Bool := false
  disableHome : Bool := false
  useLastFrame : Bool := false
  buttonText : String := ""
  postSessionButtonText : String := ""
  launchUrl : String := ""
deriving DecidableEq

/-- `getInputs` (src/appetize.ts lines 14-32): builds the configuration from
the raw option strings, converting `timeout` with `Number(...)` and the three
boolean flags with `Boolean(...)`. -/
def getInputs (raw : RawInputs) : InputData :=
  { apiHost := raw.apiHost
    apiToken := raw.apiToken
    publicKey := raw.publicKey
    platform := raw.platform
    appFile := raw.appFile
    appUrl := raw.appUrl
    fileType := raw.fileType
    note := raw.note
    timeout := jsStringToNumber raw.timeout
    disabled := jsTruthyString raw.disabled
    disableHome := jsTruthyString raw.disableHome
    useLastFrame := jsTruthyString raw.useLastFrame
    buttonText := raw.buttonText
    postSessionButtonText := raw.postSessionButtonText
    launchUrl := raw.launchUrl }

/-- The validation failure taxonomy of the spec; each case corresponds to one
`throw new Error(...)` in `validateInputData` (and `MissingSource` also to the
defensive throw in `dataAndHeaders`). -/
inductive ValidationError where
  | InvalidPlatform : ValidationError
  | MissingSource : ValidationError
  | InvalidFileType : ValidationError
  | InvalidTimeout : ValidationError
deriving DecidableEq

/-- The message string carried by each thrown `Error` in the source. -/
def errorMessage : ValidationError → String
  | ValidationError.InvalidPlatform => "Platform must be either ios or android"
  | ValidationError.MissingSource => "Either appFile or appUrl must be specified"
  | ValidationError.InvalidFileType => "FileType must be either apk, zip, or tar.gz"
  | ValidationError.InvalidTimeout =>
      "Timeout must be either 30, 60, 120, 180, 300, 600, 1800, 3600, or 7200"

/-- `validateInputData` (src/appetize.ts lines 83-118): four checks in source
order, each short-circuiting by throwing. `!input.appFile && !input.appUrl`,
`input.fileType && ...` and `input.timeout && ...` use JavaScript truthiness. -/
def validateInputData (input : InputData) : Except ValidationError Unit :=
  if input.platform != "ios" && input.platform != "android" then
    Except.error ValidationError.InvalidPlatform
  else if !jsTruthyString input.appFile && !jsTruthyString input.appUrl then
    Except.error ValidationError.MissingSource
  else if jsTruthyString input.fileType && input.fileType != "apk" &&
      input.fileType != "zip" && input.fileType != "tar.gz" then
    Except.error ValidationError.InvalidFileType
  else if jsTruthy input.timeout && input.timeout != JsNumber.int 30 &&
      input.timeout != JsNumber.int 60 && input.timeout != JsNumber.int 120 &&
      input.timeout != JsNumber.int 180 && input.timeout != JsNumber.int 300 &&
      input.timeout != JsNumber.int 600 && input.timeout != JsNumber.int 1800 &&
      input.timeout != JsNumber.int 3600 && input.timeout != JsNumber.int 7200 then
    Except.error ValidationError.InvalidTimeout
  else
    Except.ok ()

/-- A value appended to a multipart form: either the read stream opened on a
file path (`createReadStream`) or a plain text value. -/
inductive FormValue where
  | stream : String → FormValue
  | text : String → FormValue
deriving DecidableEq

/-- A multipart form body as an ordered list of named fields, modelling the
`form-data` object that `fileData` builds. -/
abbrev MultipartForm : Type := List (String × FormValue)

/-- True when the form contains a field with the given name. -/
def hasField (form : MultipartForm) (key : String) : Bool :=
  form.any (fun p => p.1 == key)

/-- Modelled from the spec: the appended value strings that
`OptionalFormData.appendOptional` treats as not supplied. The implementation of
`OptionalFormData` (src/optionalformdata.ts) is not under src/; per the spec, a
field is included "only when its corresponding configuration value is
non-empty/non-default", and the call sites pass `String(...)` serializations,
whose empty/default forms are `""` (empty string), `"0"` (the number 0) and
`"false"` (the boolean false). -/
def omittedValue (value : String) : Bool :=
  value == "" || value == "0" || value == "false"

/-- Modelled from the spec: `OptionalFormData.appendOptional`
(src/optionalformdata.ts, not under src/) appends the field only when its value
string does not denote an empty/default configuration value. -/
def appendOptional (form : MultipartForm) (key value : String) : MultipartForm :=
  if omittedValue value then form else form ++ [(key, FormValue.text value)]

/-- Plain `FormData.append`: always appends. -/
def appendField (form : MultipartForm) (key : String) (value : FormValue) :
    MultipartForm :=
  form ++ [(key, value)]

/-- `fileData` (src/appetize.ts lines 134-148): the multipart File-variant
body. The file stream and the platform are always appended; every optional
field goes through `appendOptional`, with `timeout` and the boolean flags
serialized by `String(...)` first. -/
def fileData (inputs : InputData) : MultipartForm :=
  let form : MultipartForm := []
  let form := appendField form "file" (FormValue.stream inputs.appFile)
  let form := appendField form "platform" (FormValue.text inputs.platform)
  let form := appendOptional form "fileType" inputs.fileType
  let form := appendOptional form "note" inputs.note
  let form := appendOptional form "timeout" (jsStringOfNumber inputs.timeout)
  let form := appendOptional form "disabled" (jsStringOfBool inputs.disabled)
  let form := appendOptional form "disableHome" (jsStringOfBool inputs.disableHome)
  let form := appendOptional form "useLastFrame" (jsStringOfBool inputs.useLastFrame)
  let form := appendOptional form "buttonText" inputs.buttonText
  let form := appendOptional form "postSessionButtonText" inputs.postSessionButtonText
  let form := appendOptional form "launchUrl" inputs.launchUrl
  form

/-- The URL-variant body (interface `UrlData`, src/appetize.ts lines 169-181):
a structured object whose members keep their original types. -/
structure UrlData where
  url : String
  platform : String
  fileType : String
  note : String
  timeout : JsNumber
  disabled : Bool
  disableHome : Bool
  useLastFrame : Bool
  buttonText : String
  postSessionButtonText : String
  launchUrl : String
deriving DecidableEq

/-- `urlData` (src/appetize.ts lines 153-167): copies every field of the
configuration into the structured body, with no omission logic. -/
def urlData (inputs : InputData) : UrlData :=
  { url := inputs.appUrl
    platform := inputs.platform
    fileType := inputs.fileType
    note := inputs.note
    timeout := inputs.timeout
    disabled := inputs.disabled
    disableHome := inputs.disableHome
    useLastFrame := inputs.useLastFrame
    buttonText := inputs.buttonText
    postSessionButtonText := inputs.postSessionButtonText
    launchUrl := inputs.launchUrl }

/-- A typed member value of the serialized URL-variant object. -/
inductive JsValue where
  | str : String → JsValue
  | num : JsNumber → JsValue
  | bool : Bool → JsValue
deriving DecidableEq

/-- The members of the URL-variant object in the order the object literal in
`urlData` writes them. Every member is always present. -/
def urlDataMembers (d : UrlData) : List (String × JsValue) :=
  [("url", JsValue.str d.url),
   ("platform", JsValue.str d.platform),
   ("fileType", JsValue.str d.fileType),
   ("note", JsValue.str d.note),
   ("timeout", JsValue.num d.timeout),
   ("disabled", JsValue.bool d.disabled),
   ("disableHome", JsValue.bool d.disableHome),
   ("useLastFrame", JsValue.bool d.useLastFrame),
   ("buttonText", JsValue.str d.buttonText),
   ("postSessionButtonText", JsValue.str d.postSessionButtonText),
   ("launchUrl", JsValue.str d.launchUrl)]

/-- The two request body variants (File or URL), a tagged sum as the spec
describes. -/
inductive RequestBody where
  | fileVariant : MultipartForm → RequestBody
  | urlVariant : UrlData → RequestBody
deriving DecidableEq

/-- Modelled from the spec: the headers returned by the external `form-data`
collaborator via `form.getHeaders()`; the spec treats the transport encoding as
opaque, so they are represented by a multipart marker. -/
inductive FormHeaders where
  | multipart : FormHeaders
deriving DecidableEq

/-- `dataAndHeaders` (src/appetize.ts lines 65-77): prefers the File variant
when `appFile` is truthy, falls back to the URL variant when `appUrl` is
truthy, and otherwise throws the defensive `MissingSource` error. -/
def dataAndHeaders (inputs : InputData) :
    Except ValidationError (RequestBody × Option FormHeaders) :=
  if jsTruthyString inputs.appFile then
    Except.ok (RequestBody.fileVariant (fileData inputs), some FormHeaders.multipart)
  else if jsTruthyString inputs.appUrl then
    Except.ok (RequestBody.urlVariant (urlData inputs), none)
  else
    Except.error ValidationError.MissingSource

/-- `const apiVersion = 'v1'` (src/appetize.ts line 7). -/
def apiVersion : String := "v1"

/-- `url` (src/appetize.ts lines 123-129): the target address, appending the
public key exactly when it is truthy (non-empty). -/
def url (inputs : InputData) : String :=
  let baseUrl := inputs.apiHost ++ "/" ++ apiVersion ++ "/apps/"
  if jsTruthyString inputs.publicKey then baseUrl ++ inputs.publicKey
  else baseUrl

/-- JSON string escaping as performed by `JSON.stringify`, restricted to the
two escapes that can occur in option strings handled here: the quote and the
backslash. -/
def jsonEscape (s : String) : String :=
  String.join (s.data.map (fun c =>
    if c = '"' then "\\\""
    else if c = '\\' then "\\\\"
    else String.singleton c))

/-- A JSON string literal. -/
def jsonString (s : String) : String := "\"" ++ jsonEscape s ++ "\""

/-- `JSON.stringify` of a number: NaN serializes as `null`. -/
def jsonNumber : JsNumber → String
  | JsNumber.nan => "null"
  | JsNumber.int v => toString v

/-- `JSON.stringify` of a boolean. -/
def jsonBool (b : Bool) : String := if b then "true" else "false"

/-- `JSON.stringify` of an `InputData` object, with the members in the
insertion order of `getInputs`. -/
def jsonStringifyInput (d : InputData) : String :=
  "\x7b" ++
  "\"apiHost\":" ++ jsonString d.apiHost ++
  ",\"apiToken\":" ++ jsonString d.apiToken ++
  ",\"publicKey\":" ++ jsonString d.publicKey ++
  ",\"platform\":" ++ jsonString d.platform ++
  ",\"appFile\":" ++ jsonString d.appFile ++
  ",\"appUrl\":" ++ jsonString d.appUrl ++
  ",\"fileType\":" ++ jsonString d.fileType ++
  ",\"note\":" ++ jsonString d.note ++
  ",\"timeout\":" ++ jsonNumber d.timeout ++
  ",\"disabled\":" ++ jsonBool d.disabled ++
  ",\"disableHome\":" ++ jsonBool d.disableHome ++
  ",\"useLastFrame\":" ++ jsonBool d.useLastFrame ++
  ",\"buttonText\":" ++ jsonString d.buttonText ++
  ",\"postSessionButtonText\":" ++ jsonString d.postSessionButtonText ++
  ",\"launchUrl\":" ++ jsonString d.launchUrl ++
  "\x7d"

/-- The scrubbed copy of the configuration built by `uploadBuild` (lines
45-46): `const scrubbedInputs = \x7b...inputs\x7d; scrubbedInputs.apiToken =
"scrubbed"`. The spread copies the record, and the assignment mutates only the
copy. -/
def scrubbedOf (inputs : InputData) : InputData :=
  { inputs with apiToken := "scrubbed" }

/-- The diagnostic lines `uploadBuild` emits through `core.info` before
sending (lines 43-47): the target address, a caption, and the JSON of the
scrubbed configuration copy. -/
def diagnosticOutput (inputs : InputData) : List String :=
  ["Uploading build to " ++ url inputs,
   "Attached scrubbed build info:",
   jsonStringifyInput (scrubbedOf inputs)]

/-- The outbound HTTP POST request handed to the transport collaborator:
target address, body, optional multipart headers, and basic-auth credentials
(username = apiToken, password = empty). -/
structure HttpRequest where
  address : String
  body : RequestBody
  headers : Option FormHeaders
  authUsername : String
  authPassword : String
deriving DecidableEq

/-- `uploadBuild` (src/appetize.ts lines 40-58) up to the external transport
call: validates, builds body and headers, emits the diagnostic lines, and
assembles the POST request with basic auth from the original (unscrubbed)
configuration. The `axios.post` call itself and the response are the external
transport collaborator. -/
def uploadBuild (inputs : InputData) :
    Except ValidationError (List String × HttpRequest) :=
  match validateInputData inputs with
  | Except.error e => Except.error e
  | Except.ok _ =>
    match dataAndHeaders inputs with
    | Except.error e => Except.error e
    | Except.ok (data, headers) =>
      Except.ok (diagnosticOutput inputs,
        { address := url inputs
          body := data
          headers := headers
          authUsername := inputs.apiToken
          authPassword := "" })

/-- The timeouts the validator accepts (the nine literals compared against in
src/appetize.ts lines 104-112). -/
def allowedTimeouts : List Int := [30, 60, 120, 180, 300, 600, 1800, 3600, 7200]

/-- Membership of a field name in a form built by `appendOptional`: the form
gains the key exactly when the value string is not an omitted one. -/
theorem hasField_appendOptional (form : MultipartForm) (key value k : String) :
    hasField (appendOptional form key value) k =
      (hasField form k || (key == k && !omittedValue value)) := by
  unfold appendOptional
  by_cases h : omittedValue value <;> simp [h, hasField]

/-- A form member survives a later `appendOptional`. -/
theorem mem_appendOptional (form : MultipartForm) (key value : String)
    (p : String × FormValue) (h : p ∈ form) : p ∈ appendOptional form key value := by
  unfold appendOptional
  split
  · exact h
  · exact List.mem_append_left _ h

/-- A non-omitted value is a member of the form `appendOptional` returns. -/
theorem self_mem_appendOptional (form : MultipartForm) (key value : String)
    (h : omittedValue value = false) :
    (key, FormValue.text value) ∈ appendOptional form key value := by
  unfold appendOptional
  rw [h]
  simp

/-- A JavaScript number is falsy exactly when it is NaN or zero. -/
theorem jsTruthy_eq_false (t : JsNumber) :
    jsTruthy t = false ↔ t = JsNumber.nan ∨ t = JsNumber.int 0 := by
  cases t <;> simp [jsTruthy]

/-- Inversion of a successful validation: every configuration accepted by
`validateInputData` has a valid platform, at least one source, a recognized or
empty file type, and a falsy or enumerated timeout. -/
theorem validateInputData_ok (cfg : InputData)
    (h : validateInputData cfg = Except.ok ()) :
    (cfg.platform = "ios" ∨ cfg.platform = "android") ∧
    (cfg.appFile ≠ "" ∨ cfg.appUrl ≠ "") ∧
    (cfg.fileType = "" ∨ cfg.fileType = "apk" ∨ cfg.fileType = "zip" ∨
      cfg.fileType = "tar.gz") ∧
    (cfg.timeout = JsNumber.nan ∨ cfg.timeout = JsNumber.int 0 ∨
      cfg.timeout ∈ ([JsNumber.int 30, JsNumber.int 60, JsNumber.int 120,
        JsNumber.int 180, JsNumber.int 300, JsNumber.int 600, JsNumber.int 1800,
        JsNumber.int 3600, JsNumber.int 7200] : List JsNumber)) := by
  unfold validateInputData at h
  split at h
  · cases h
  · split at h
    · cases h
    · split at h
      · cases h
      · split at h
        · cases h
        · rename_i h1 h2 h3 h4
          simp only [Bool.and_eq_true, bne_iff_ne, Bool.not_eq_true', not_and,
            Bool.not_eq_true, jsTruthyString] at h1 h2 h3 h4
          refine ⟨?_, ?_, ?_, ?_⟩
          · by_cases hp : cfg.platform = "ios"
            · exact Or.inl hp
            · right
              by_contra ha
              exact absurd h1 (by simp [hp, ha])
          · by_cases hf : cfg.appFile = ""
            · right
              by_contra hu
              exact absurd h2 (by simp [hf, hu])
            · exact Or.inl hf
          · by_cases hf0 : cfg.fileType = ""
            · exact Or.inl hf0
            · by_cases ha : cfg.fileType = "apk"
              · exact Or.inr (Or.inl ha)
              · by_cases hz : cfg.fileType = "zip"
                · exact Or.inr (Or.inr (Or.inl hz))
                · right; right; right
                  by_contra htg
                  exact absurd h3 (by simp [hf0, ha, hz, htg])
          · by_cases hn : jsTruthy cfg.timeout = false
            · rcases (jsTruthy_eq_false cfg.timeout).mp hn with h | h
              · exact Or.inl h
              · exact Or.inr (Or.inl h)
            · right; right
              simp only [Bool.not_eq_false] at hn
              by_contra hm
              simp only [List.mem_cons, List.not_mem_nil, or_false] at hm
              push_neg at hm
              obtain ⟨m30, m60, m120, m180, m300, m600, m1800, m3600, m7200⟩ := hm
              have hc := h4 ⟨⟨⟨⟨⟨⟨⟨⟨hn, m30⟩, m60⟩, m120⟩, m180⟩, m300⟩, m600⟩,
                m1800⟩, m3600⟩
              exact m7200 (not_not.mp hc)

/-- Claim C1: a configuration whose timeout is a non-zero number outside the
enumerated set fails validation with `InvalidTimeout` (once the earlier
short-circuiting rules pass, per the spec's checked-in-order design); a
configuration whose timeout is 0 never fails the timeout check; and the
timeout checked is the number obtained by `Number(...)` conversion of the
timeout option string, with the empty (unset) string converting to 0. -/
theorem timeout_rule (cfg : InputData) (raw : RawInputs) (v : Int) :
    (cfg.timeout = JsNumber.int v → v ≠ 0 → v ∉ allowedTimeouts →
      (cfg.platform = "ios" ∨ cfg.platform = "android") →
      (cfg.appFile ≠ "" ∨ cfg.appUrl ≠ "") →
      (cfg.fileType = "" ∨ cfg.fileType = "apk" ∨ cfg.fileType = "zip" ∨
        cfg.fileType = "tar.gz") →
      validateInputData cfg = Except.error ValidationError.InvalidTimeout) ∧
    (cfg.timeout = JsNumber.int 0 →
      validateInputData cfg ≠ Except.error ValidationError.InvalidTimeout) ∧
    (getInputs raw).timeout = jsStringToNumber raw.timeout ∧
    jsStringToNumber "" = JsNumber.int 0 := by
  refine ⟨?_, ?_, rfl, rfl⟩
  · intro ht hv hmem hp hs hf
    simp only [allowedTimeouts, List.mem_cons, List.not_mem_nil, or_false] at hmem
    push_neg at hmem
    have c1 : (cfg.platform != "ios" && cfg.platform != "android") = false := by
      rcases hp with h | h <;> simp [h]
    have c2 : (!jsTruthyString cfg.appFile && !jsTruthyString cfg.appUrl) = false := by
      rcases hs with h | h <;> simp [jsTruthyString, h]
    have c3 : (jsTruthyString cfg.fileType && cfg.fileType != "apk" &&
        cfg.fileType != "zip" && cfg.fileType != "tar.gz") = false := by
      rcases hf with h | h | h | h <;> simp [jsTruthyString, h]
    simp [validateInputData, c1, c2, c3, ht, jsTruthy, hv, hmem]
  · intro ht
    unfold validateInputData
    split
    · simp
    · split
      · simp
      · split
        · simp
        · rw [if_neg]
          · simp
          · simp [ht, jsTruthy]

/-- Witness for C1: timeout 45 on an otherwise valid configuration is rejected
with `InvalidTimeout`; the default timeout 0 never triggers that rejection. -/
theorem timeout_rule_witness :
    validateInputData { platform := "ios", appFile := "app.zip", timeout := JsNumber.int 45 } =
      Except.error ValidationError.InvalidTimeout ∧
    validateInputData { platform := "ios", appFile := "app.zip" } ≠
      Except.error ValidationError.InvalidTimeout :=
  ⟨(timeout_rule { platform := "ios", appFile := "app.zip", timeout := JsNumber.int 45 } {} 45).1
      rfl (by decide) (by decide) (Or.inl rfl) (Or.inl (by decide)) (Or.inl rfl),
   (timeout_rule { platform := "ios", appFile := "app.zip" } {} 0).2.1 rfl⟩

/-- Claim C4: the target address is the host followed by `/v1/apps/` and, when
the public key is non-empty, the public key itself. -/
theorem target_address (cfg : InputData) :
    (cfg.publicKey ≠ "" →
      url cfg = cfg.apiHost ++ "/v1/apps/" ++ cfg.publicKey) ∧
    (cfg.publicKey = "" → url cfg = cfg.apiHost ++ "/v1/apps/") := by
  constructor
  · intro h
    simp [url, jsTruthyString, h, apiVersion, String.append_assoc]
  · intro h
    simp [url, jsTruthyString, h, apiVersion, String.append_assoc]

/-- Witness for C4: the round-trip examples of the claim. -/
theorem target_address_witness :
    url { apiHost := "https://api.example.com", publicKey := "abc123" } =
      "https://api.example.com/v1/apps/abc123" ∧
    url { apiHost := "https://api.example.com" } =
      "https://api.example.com/v1/apps/" := by
  constructor
  · exact ((target_address { apiHost := "https://api.example.com", publicKey := "abc123" }).1
      (by decide)).trans (by decide)
  · exact ((target_address { apiHost := "https://api.example.com" }).2 rfl).trans (by decide)

/-- Claim C7: with a valid platform but neither source set, validation fails
with `MissingSource`; and `dataAndHeaders`, invoked directly with neither
source set, also raises `MissingSource` defensively. -/
theorem missing_source_rule (cfg : InputData) :
    ((cfg.platform = "ios" ∨ cfg.platform = "android") → cfg.appFile = "" →
      cfg.appUrl = "" →
      validateInputData cfg = Except.error ValidationError.MissingSource) ∧
    (cfg.appFile = "" → cfg.appUrl = "" →
      dataAndHeaders cfg = Except.error ValidationError.MissingSource) := by
  constructor
  · intro hp hf hu
    have c1 : (cfg.platform != "ios" && cfg.platform != "android") = false := by
      rcases hp with h | h <;> simp [h]
    simp [validateInputData, c1, jsTruthyString, hf, hu]
  · intro hf hu
    simp [dataAndHeaders, jsTruthyString, hf, hu]

/-- Witness for C7: a configuration with only the platform set. -/
theorem missing_source_rule_witness :
    validateInputData { platform := "ios" } =
      Except.error ValidationError.MissingSource ∧
    dataAndHeaders { platform := "ios" } =
      Except.error ValidationError.MissingSource :=
  ⟨(missing_source_rule { platform := "ios" }).1 (Or.inl rfl) rfl rfl,
   (missing_source_rule { platform := "ios" }).2 rfl rfl⟩

/-- Claim C8: the platform rule is checked first: any configuration whose
platform is neither `ios` nor `android` fails with `InvalidPlatform`,
regardless of every other field, even when later rules are also violated. -/
theorem platform_rule_first (cfg : InputData)
    (h1 : cfg.platform ≠ "ios") (h2 : cfg.platform ≠ "android") :
    validateInputData cfg = Except.error ValidationError.InvalidPlatform := by
  simp [validateInputData, h1, h2]

/-- Witness for C8: an invalid platform wins even when the source rule and the
timeout rule are violated as well. -/
theorem platform_rule_first_witness :
    validateInputData { platform := "windows", timeout := JsNumber.int 45 } =
      Except.error ValidationError.InvalidPlatform :=
  platform_rule_first { platform := "windows", timeout := JsNumber.int 45 }
    (by decide) (by decide)

/-- Claim C9: each boolean behavior option is converted with `Boolean(...)`:
the configuration flag is true exactly when the option string is non-empty, so
the literal text "false" also yields true. -/
theorem boolean_flag_coercion (raw : RawInputs) :
    ((getInputs raw).disabled = true ↔ raw.disabled ≠ "") ∧
    ((getInputs raw).disableHome = true ↔ raw.disableHome ≠ "") ∧
    ((getInputs raw).useLastFrame = true ↔ raw.useLastFrame ≠ "") ∧
    (raw.disabled = "false" → (getInputs raw).disabled = true) := by
  refine ⟨?_, ?_, ?_, ?_⟩ <;> simp [getInputs, jsTruthyString]
  intro h
  simp [h]

/-- Witness for C9: the option string "false" coerces to the flag true. -/
theorem boolean_flag_coercion_witness :
    (getInputs { disabled := "false" }).disabled = true :=
  (boolean_flag_coercion { disabled := "false" }).2.2.2 rfl

/-- Claim C3: the diagnostic output is independent of the apiToken value (so
the token can never leak into it), and the token field of the emitted
configuration copy is always the fixed placeholder "scrubbed". -/
theorem diagnostics_never_leak_token (cfg : InputData) (t : String) :
    diagnosticOutput { cfg with apiToken := t } = diagnosticOutput cfg ∧
    (scrubbedOf cfg).apiToken = "scrubbed" :=
  ⟨rfl, rfl⟩

/-- Claim C5: the builder produces the multipart File variant exactly when the
file path is non-empty and the URL variant exactly when the file path is empty
and the remote URL is non-empty; with both set, the File variant wins. -/
theorem source_selection (cfg : InputData) :
    (cfg.appFile ≠ "" →
      dataAndHeaders cfg =
        Except.ok (RequestBody.fileVariant (fileData cfg), some FormHeaders.multipart)) ∧
    (cfg.appFile = "" → cfg.appUrl ≠ "" →
      dataAndHeaders cfg = Except.ok (RequestBody.urlVariant (urlData cfg), none)) ∧
    ((∃ form h, dataAndHeaders cfg = Except.ok (RequestBody.fileVariant form, h)) ↔
      cfg.appFile ≠ "") ∧
    ((∃ d h, dataAndHeaders cfg = Except.ok (RequestBody.urlVariant d, h)) ↔
      (cfg.appFile = "" ∧ cfg.appUrl ≠ "")) := by
  by_cases hf : cfg.appFile = "" <;> by_cases hu : cfg.appUrl = "" <;>
    simp [dataAndHeaders, jsTruthyString, hf, hu]

/-- Witness for C5: with both sources set the File variant is chosen, and with
only the remote URL set the URL variant is chosen. -/
theorem source_selection_witness :
    dataAndHeaders { platform := "ios", appFile := "a.zip", appUrl := "https://x/a.zip" } =
      Except.ok
        (RequestBody.fileVariant
          (fileData { platform := "ios", appFile := "a.zip", appUrl := "https://x/a.zip" }),
         some FormHeaders.multipart) ∧
    dataAndHeaders { platform := "ios", appUrl := "https://x/a.zip" } =
      Except.ok
        (RequestBody.urlVariant (urlData { platform := "ios", appUrl := "https://x/a.zip" }),
         none) :=
  ⟨(source_selection { platform := "ios", appFile := "a.zip", appUrl := "https://x/a.zip" }).1
      (by decide),
   (source_selection { platform := "ios", appUrl := "https://x/a.zip" }).2.1 rfl (by decide)⟩

/-- Claim C6: for a validated configuration with empty file path and non-empty
remote URL, the URL-variant body carries every member (url, platform,
fileType, note, timeout, disabled, disableHome, useLastFrame, buttonText,
postSessionButtonText, launchUrl) as a typed object member with no omission;
in particular the note member is present even when the note is empty. -/
theorem urlVariant_always_carries_members (cfg : InputData)
    (_hval : validateInputData cfg = Except.ok ())
    (hf : cfg.appFile = "") (hu : cfg.appUrl ≠ "") :
    dataAndHeaders cfg = Except.ok (RequestBody.urlVariant (urlData cfg), none) ∧
    urlDataMembers (urlData cfg) =
      [("url", JsValue.str cfg.appUrl),
       ("platform", JsValue.str cfg.platform),
       ("fileType", JsValue.str cfg.fileType),
       ("note", JsValue.str cfg.note),
       ("timeout", JsValue.num cfg.timeout),
       ("disabled", JsValue.bool cfg.disabled),
       ("disableHome", JsValue.bool cfg.disableHome),
       ("useLastFrame", JsValue.bool cfg.useLastFrame),
       ("buttonText", JsValue.str cfg.buttonText),
       ("postSessionButtonText", JsValue.str cfg.postSessionButtonText),
       ("launchUrl", JsValue.str cfg.launchUrl)] ∧
    ("note", JsValue.str cfg.note) ∈ urlDataMembers (urlData cfg) := by
  refine ⟨?_, rfl, by simp [urlDataMembers, urlData]⟩
  simp [dataAndHeaders, jsTruthyString, hf, hu]

/-- Witness for C6: a valid URL-only configuration with an empty note still
carries the note member (with the empty value). -/
theorem urlVariant_always_carries_members_witness :
    dataAndHeaders { platform := "android", appUrl := "https://files/app.apk" } =
      Except.ok
        (RequestBody.urlVariant (urlData { platform := "android", appUrl := "https://files/app.apk" }),
         none) ∧
    ("note", JsValue.str "") ∈
      urlDataMembers (urlData { platform := "android", appUrl := "https://files/app.apk" }) :=
  ⟨(urlVariant_always_carries_members { platform := "android", appUrl := "https://files/app.apk" }
      rfl rfl (by decide)).1,
   (urlVariant_always_carries_members { platform := "android", appUrl := "https://files/app.apk" }
      rfl rfl (by decide)).2.2⟩

/-- Claim C10: scrubbing operates on a copy: in the assembled upload, the
outbound request still authenticates with the original apiToken as basic-auth
username and an empty password, the scrubbed copy differs from the original
configuration only in the apiToken field (restoring it recovers the original,
so every other field kept its value), and the emitted log is the diagnostic
output of the original configuration. -/
theorem scrubbing_frame_condition (cfg : InputData) (log : List String)
    (req : HttpRequest) (h : uploadBuild cfg = Except.ok (log, req)) :
    req.authUsername = cfg.apiToken ∧ req.authPassword = "" ∧
    { scrubbedOf cfg with apiToken := cfg.apiToken } = cfg ∧
    log = diagnosticOutput cfg := by
  unfold uploadBuild at h
  split at h
  · cases h
  · split at h
    · cases h
    · rw [Except.ok.injEq, Prod.mk.injEq] at h
      obtain ⟨hlog, hreq⟩ := h
      subst hlog
      subst hreq
      exact ⟨rfl, rfl, rfl, rfl⟩

/-- Witness for C10: a concrete upload whose request authenticates with the
original token "tok" while the log shows only the scrubbed copy. -/
theorem scrubbing_frame_condition_witness :
    ({ address := url { apiToken := "tok", platform := "ios", appFile := "a.zip" },
       body := RequestBody.fileVariant (fileData { apiToken := "tok", platform := "ios", appFile := "a.zip" }),
       headers := some FormHeaders.multipart,
       authUsername := "tok", authPassword := "" } : HttpRequest).authUsername =
      ({ apiToken := "tok", platform := "ios", appFile := "a.zip" } : InputData).apiToken ∧
    ({ address := url { apiToken := "tok", platform := "ios", appFile := "a.zip" },
       body := RequestBody.fileVariant (fileData { apiToken := "tok", platform := "ios", appFile := "a.zip" }),
       headers := some FormHeaders.multipart,
       authUsername := "tok", authPassword := "" } : HttpRequest).authPassword = "" ∧
    { scrubbedOf { apiToken := "tok", platform := "ios", appFile := "a.zip" } with
        apiToken := ({ apiToken := "tok", platform := "ios", appFile := "a.zip" } : InputData).apiToken } =
      { apiToken := "tok", platform := "ios", appFile := "a.zip" } ∧
    diagnosticOutput { apiToken := "tok", platform := "ios", appFile := "a.zip" } =
      diagnosticOutput { apiToken := "tok", platform := "ios", appFile := "a.zip" } :=
  scrubbing_frame_condition { apiToken := "tok", platform := "ios", appFile := "a.zip" }
    (diagnosticOutput { apiToken := "tok", platform := "ios", appFile := "a.zip" })
    { address := url { apiToken := "tok", platform := "ios", appFile := "a.zip" },
      body := RequestBody.fileVariant (fileData { apiToken := "tok", platform := "ios", appFile := "a.zip" }),
      headers := some FormHeaders.multipart,
      authUsername := "tok", authPassword := "" }
    rfl

/-- Counterexample to claim C2 as stated: in the validated configuration with
platform "ios", appFile "app.zip" and the non-empty note "false", the built
File-variant body omits the note field, although the note configuration value
is non-empty (and differs from its default, the empty string). -/
theorem fileVariant_nonempty_note_omitted :
    validateInputData { platform := "ios", appFile := "app.zip", note := "false" } =
      Except.ok () ∧
    ({ platform := "ios", appFile := "app.zip", note := "false" } : InputData).appFile ≠ "" ∧
    ({ platform := "ios", appFile := "app.zip", note := "false" } : InputData).note ≠ "" ∧
    hasField (fileData { platform := "ios", appFile := "app.zip", note := "false" }) "note" =
      false := by
  refine ⟨rfl, by decide, by decide, rfl⟩

/-- Claim C2 (amended): for a validated configuration with a non-empty file
path, an optional field is included in the File-variant body exactly when its
serialized text is none of the default-denoting literals "", "0", "false"; for
fileType this coincides with being non-empty, for timeout with being non-zero,
and for the boolean flags with being true, but a free-text field whose value
is literally "0" or "false" is omitted despite being non-empty. Numbers and
booleans appear through their textual representation, and an empty note is
omitted entirely. -/
theorem fileVariant_field_inclusion (cfg : InputData)
    (hval : validateInputData cfg = Except.ok ()) (_hfile : cfg.appFile ≠ "") :
    hasField (fileData cfg) "file" = true ∧
    hasField (fileData cfg) "platform" = true ∧
    (hasField (fileData cfg) "fileType" = true ↔ cfg.fileType ≠ "") ∧
    (hasField (fileData cfg) "note" = true ↔ omittedValue cfg.note = false) ∧
    (hasField (fileData cfg) "timeout" = true ↔ cfg.timeout ≠ JsNumber.int 0) ∧
    (hasField (fileData cfg) "disabled" = true ↔ cfg.disabled = true) ∧
    (hasField (fileData cfg) "disableHome" = true ↔ cfg.disableHome = true) ∧
    (hasField (fileData cfg) "useLastFrame" = true ↔ cfg.useLastFrame = true) ∧
    (hasField (fileData cfg) "buttonText" = true ↔ omittedValue cfg.buttonText = false) ∧
    (hasField (fileData cfg) "postSessionButtonText" = true ↔
      omittedValue cfg.postSessionButtonText = false) ∧
    (hasField (fileData cfg) "launchUrl" = true ↔ omittedValue cfg.launchUrl = false) ∧
    (cfg.note = "" → hasField (fileData cfg) "note" = false) ∧
    (cfg.disabled = true → ("disabled", FormValue.text "true") ∈ fileData cfg) ∧
    (cfg.timeout = JsNumber.int 60 → ("timeout", FormValue.text "60") ∈ fileData cfg) := by
  obtain ⟨-, -, hft, hto⟩ := validateInputData_ok cfg hval
  have hser : (!omittedValue (jsStringOfNumber cfg.timeout)) =
      (cfg.timeout != JsNumber.int 0) := by
    rcases hto with h | h | h
    · rw [h]; decide
    · rw [h]; decide
    · simp only [List.mem_cons, List.not_mem_nil, or_false] at h
      rcases h with h | h | h | h | h | h | h | h | h <;> rw [h] <;> decide
  refine ⟨?_, ?_, ?_, ?_, ?_, ?_, ?_, ?_, ?_, ?_, ?_, ?_, ?_, ?_⟩
  · simp only [fileData, appendField, hasField_appendOptional]
    simp [hasField]
  · simp only [fileData, appendField, hasField_appendOptional]
    simp [hasField]
  · simp only [fileData, appendField, hasField_appendOptional]
    simp [hasField]
    rcases hft with h | h | h | h <;> simp [h, omittedValue]
  · simp only [fileData, appendField, hasField_appendOptional]
    simp [hasField]
  · simp only [fileData, appendField, hasField_appendOptional, hser]
    simp [hasField]
  · simp only [fileData, appendField, hasField_appendOptional]
    simp [hasField]
    cases h : cfg.disabled <;> simp [jsStringOfBool, omittedValue]
  · simp only [fileData, appendField, hasField_appendOptional]
    simp [hasField]
    cases h : cfg.disableHome <;> simp [jsStringOfBool, omittedValue]
  · simp only [fileData, appendField, hasField_appendOptional]
    simp [hasField]
    cases h : cfg.useLastFrame <;> simp [jsStringOfBool, omittedValue]
  · simp only [fileData, appendField, hasField_appendOptional]
    simp [hasField]
  · simp only [fileData, appendField, hasField_appendOptional]
    simp [hasField]
  · simp only [fileData, appendField, hasField_appendOptional]
    simp [hasField]
  · intro h
    simp only [fileData, appendField, hasField_appendOptional]
    simp [hasField, h, omittedValue]
  · intro h
    simp only [fileData, appendField]
    apply mem_appendOptional
    apply mem_appendOptional
    apply mem_appendOptional
    apply mem_appendOptional
    apply mem_appendOptional
    rw [h]
    exact self_mem_appendOptional _ _ _ (by decide)
  · intro h
    simp only [fileData, appendField]
    apply mem_appendOptional
    apply mem_appendOptional
    apply mem_appendOptional
    apply mem_appendOptional
    apply mem_appendOptional
    apply mem_appendOptional
    rw [h]
    exact self_mem_appendOptional _ _ _ (by decide)

/-- Witness for C2 (amended): a validated file upload with a note, a timeout
of 60 and the disabled flag set carries note, timeout and disabled, and the
serialized values of the number and the boolean appear as text. -/
theorem fileVariant_field_inclusion_witness :
    hasField (fileData { platform := "android", appFile := "a.apk", note := "hello", timeout := JsNumber.int 60, disabled := true }) "note" = true ∧
    (("timeout", FormValue.text "60") ∈
      fileData { platform := "android", appFile := "a.apk", note := "hello", timeout := JsNumber.int 60, disabled := true }) ∧
    (("disabled", FormValue.text "true") ∈
      fileData { platform := "android", appFile := "a.apk", note := "hello", timeout := JsNumber.int 60, disabled := true }) :=
  ⟨((fileVariant_field_inclusion { platform := "android", appFile := "a.apk", note := "hello", timeout := JsNumber.int 60, disabled := true }
      rfl (by decide)).2.2.2.1).mpr rfl,
   (fileVariant_field_inclusion { platform := "android", appFile := "a.apk", note := "hello", timeout := JsNumber.int 60, disabled := true }
      rfl (by decide)).2.2.2.2.2.2.2.2.2.2.2.2.2 rfl,
   (fileVariant_field_inclusion { platform := "android", appFile := "a.apk", note := "hello", timeout := JsNumber.int 60, disabled := true }
      rfl (by decide)).2.2.2.2.2.2.2.2.2.2.2.2.1 rfl⟩

end Appetize
